import Mathlib

/-!
A verification development for the pipsqueak API client layer.

The Python sources are shallowly embedded:

* Python `dict`s become association lists (`pyGet`/`pySet`/`pyDel`/`pyMem`
  mirror `d[k]`, `d[k] = v`, `d.pop(k)` and `k in d`); Python `set`s of UUIDs
  become duplicate-free `List Nat` (`uuid4` values are modelled as naturals).
* Python `str` is Lean `String`; `datetime.strftime`/`strptime` for the fixed
  format strings used by the converter are embedded character-by-character.
* Fallible code returns `Except`/`Option`; raised exceptions become explicit
  result constructors.
-/

namespace Pipsqueak

/-- The `d[k]` on a Python dict modelled as an association list: the value stored
under `k`, if any. -/
def pyGet {α β : Type} [DecidableEq α] : List (α × β) → α → Option β
  | [], _ => none
  | (k', v') :: m, k => if k' = k then some v' else pyGet m k

/-- The `d[k] = v` on a Python dict: replace the binding of `k` if present
(keeping its position, as CPython does), else append a new binding. -/
def pySet {α β : Type} [DecidableEq α] : List (α × β) → α → β → List (α × β)
  | [], k, v => [(k, v)]
  | (k', v') :: m, k, v => if k' = k then (k, v) :: m else (k', v') :: pySet m k v

/-- The `d.pop(k)` / `del d[k]`: remove the binding of `k` (the first one; a dict
built through `pySet` has no duplicate keys). -/
def pyDel {α β : Type} [DecidableEq α] : List (α × β) → α → List (α × β)
  | [], _ => []
  | (k', v') :: m, k => if k' = k then m else (k', v') :: pyDel m k

/-- The `k in d` on a Python dict. -/
def pyMem {α β : Type} [DecidableEq α] (m : List (α × β)) (k : α) : Bool :=
  (pyGet m k).isSome

/-! ## Timestamps

`Modules/api/v20.py` formats and parses timestamps with the fixed format
strings `"%Y-%m-%dT%H:%M:%S.%fZ"` (rescue timestamps) and
`"%Y-%m-%dT%H:%M:%S.%f"` (quotation timestamps).  We embed a Python
`datetime` value as its seven numeric components and the two format strings
as explicit render/parse functions over the character list of the string. -/

/-- A Python `datetime.datetime` value (naive, as used by the converter). -/
structure DateTime where
  year : Nat
  month : Nat
  day : Nat
  hour : Nat
  minute : Nat
  second : Nat
  microsecond : Nat
deriving DecidableEq

/-- The numeric value of a decimal digit character. -/
def digitVal (c : Char) : Nat := c.toNat - 48

/-- Decimal digit characters of `n`, most significant first (`""` for 0 only
as part of a padded field). -/
def natChars (n : Nat) : List Char := ((Nat.digits 10 n).map Nat.digitChar).reverse

/-- Zero-pad a digit string on the left to width `w` (`"%02d"`-style). -/
def padChars (w : Nat) (l : List Char) : List Char :=
  List.replicate (w - l.length) '0' ++ l

/-- Render `n` in decimal, zero-padded to width `w` (width 0 = no padding). -/
def renderPad (w n : Nat) : List Char := padChars w (natChars n)

/-- Read a (possibly empty) run of decimal digits off the front of `l`,
returning its value and the rest. -/
def readNat (l : List Char) : Nat × List Char :=
  (Nat.ofDigits 10 (((l.takeWhile Char.isDigit).map digitVal).reverse),
   l.dropWhile Char.isDigit)

/-- Consume an expected literal character. -/
def expectChar (c : Char) : List Char → Option (List Char)
  | [] => none
  | x :: xs => if x = c then some xs else none

/-- The `datetime.strftime` for the converter's format: `%Y-%m-%dT%H:%M:%S.%f`
with a literal `Z` suffix iff `zSuffix` (rescue timestamps carry the `Z`,
quotation timestamps do not). -/
def renderDT (zSuffix : Bool) (dt : DateTime) : List Char :=
  renderPad 0 dt.year ++ '-' :: (renderPad 2 dt.month ++ '-' :: (renderPad 2 dt.day ++
  'T' :: (renderPad 2 dt.hour ++ ':' :: (renderPad 2 dt.minute ++ ':' :: (renderPad 2 dt.second ++
  '.' :: (renderPad 6 dt.microsecond ++ (if zSuffix then ['Z'] else [])))))))

/-- The `strftime` on the embedded `String` type. -/
def strftime (zSuffix : Bool) (dt : DateTime) : String :=
  String.mk (renderDT zSuffix dt)

/-- The `datetime.strptime` for the same fixed format, on a character list. -/
def parseDTChars (zSuffix : Bool) (l0 : List Char) : Option DateTime :=
  match readNat l0 with
  | (y, r0) =>
  match expectChar '-' r0 with
  | none => none
  | some l1 =>
  match readNat l1 with
  | (mo, r1) =>
  match expectChar '-' r1 with
  | none => none
  | some l2 =>
  match readNat l2 with
  | (d, r2) =>
  match expectChar 'T' r2 with
  | none => none
  | some l3 =>
  match readNat l3 with
  | (h, r3) =>
  match expectChar ':' r3 with
  | none => none
  | some l4 =>
  match readNat l4 with
  | (mi, r4) =>
  match expectChar ':' r4 with
  | none => none
  | some l5 =>
  match readNat l5 with
  | (s, r5) =>
  match expectChar '.' r5 with
  | none => none
  | some l6 =>
  match readNat l6 with
  | (us, r6) =>
  if zSuffix then
    match expectChar 'Z' r6 with
    | some [] => some ⟨y, mo, d, h, mi, s, us⟩
    | _ => none
  else
    match r6 with
    | [] => some ⟨y, mo, d, h, mi, s, us⟩
    | _ => none

/-- The `strptime` on the embedded `String` type. -/
def strptime (zSuffix : Bool) (s : String) : Option DateTime :=
  parseDTChars zSuffix s.data

/-! ## Strings and enumerations

`utils/ratlib.py` (the home of `Status`, `Platforms` and `Outcome`) is not
part of the sources; those enumerations are modelled from the spec (§3:
"lifecycle status (open/inactive/closed — tri-state)", "platform (enumerated,
default unknown)", "outcome (nullable, set only on closure)") and from the
enum member names visible in the converter and test data. -/

/-- Python `str.lower()` (only applied to ASCII enum names and language ids
here). -/
def pyLower (s : String) : String := String.mk (s.data.map Char.toLower)

/-- Python `str.upper()`. -/
def pyUpper (s : String) : String := String.mk (s.data.map Char.toUpper)

/-- Modelled from the spec: the tri-state rescue lifecycle status enum of the
missing `utils/ratlib.py`. -/
inductive Status where
  | OPEN
  | INACTIVE
  | CLOSED
deriving DecidableEq

/-- The `Status.name` (the Python enum member name). -/
def statusName : Status → String
  | .OPEN => "OPEN"
  | .INACTIVE => "INACTIVE"
  | .CLOSED => "CLOSED"

/-- Modelled from the spec: the platform enum of the missing
`utils/ratlib.py`, with the `DEFAULT` ("unknown") member the converter treats
specially. -/
inductive Platforms where
  | PC
  | XB
  | PS4
  | DEFAULT
deriving DecidableEq

/-- The `Platforms.name`. -/
def platformName : Platforms → String
  | .PC => "PC"
  | .XB => "XB"
  | .PS4 => "PS4"
  | .DEFAULT => "DEFAULT"

/-- Modelled from the spec: the (nullable, closure-only) outcome enum of the
missing `utils/ratlib.py`.  The v2.0 converter neither encodes nor decodes
it. -/
inductive Outcome where
  | SUCCESS
  | FAILURE
deriving DecidableEq

/-- The `Version` enum of `Modules/api/versions.py`. -/
inductive Version where
  | V_20
  | V_21
deriving DecidableEq

/-- The `Version.value`: the wire token of each version member. -/
def Version.value : Version → String
  | .V_20 => "v2.0"
  | .V_21 => "v2.1"

/-- The `Version(token)`: enum lookup by value; `none` models the `ValueError`
Python raises for an unknown token. -/
def versionOfToken (tok : String) : Option Version :=
  if tok = "v2.0" then some .V_20
  else if tok = "v2.1" then some .V_21
  else none

/-! ## UUIDs

UUID values are embedded as their 128-bit integers (`Nat`).  The canonical
string form `str(u)` is kept opaque (constructor `JVal.juuid` below carries
the integer); what matters to the converter is that
`UUID(str(u), version=4)` re-reads the integer and then **forces** the RFC
4122 version-4 and variant bits, exactly as CPython's
`UUID.__init__(..., version=4)` does. -/

/-- The `UUID(s, version=4)` applied to the canonical string of the UUID with
integer value `n`: clear and re-set the variant bits (bits 62–63 of the
`clock_seq_hi_and_reserved` octet, i.e. bits 62–63 from bit 48 of the node
field — positions 62 and 63 within bits 48..63) and the version nibble
(bits 76–79). -/
def forceV4 (n : Nat) : Nat :=
  ((n &&& (((2 ^ 128 - 1) ^^^ (0xc000 <<< 48)) &&& ((2 ^ 128 - 1) ^^^ (0xf000 <<< 64))))
    ||| (0x8000 <<< 48)) ||| (4 <<< 76)

/-! ## Domain entities

`Modules/rat_rescue.py`, `Modules/rat.py`, `Modules/rat_quotation.py` and
`Modules/mark_for_deletion.py` are not part of the sources; the entity
types are modelled from the spec's data model (§3).  Equality of entities is
modelled as field-wise (structure) equality over exactly the spec's fields.
The rescue's unique identifier appears in the sources both as `rescue.uuid`
(converter) and `rescue.case_id` (board); both are modelled by the single
`uuid` field. -/

/-- Modelled from the spec: a participant ("Participant (Rat): identifier,
display name, platform"). -/
structure Rat where
  uuid : Nat
  name : String
  platform : Platforms
deriving DecidableEq

/-- Modelled from the spec: a quotation ("message text, author,
created/updated timestamps, last-editor name"). -/
structure Quotation where
  message : String
  author : String
  created_at : DateTime
  updated_at : DateTime
  last_author : String
deriving DecidableEq

/-- Modelled from the spec: the deletion-review marker ("boolean flag,
nullable reporter, nullable reason"). -/
structure MarkForDeletion where
  marked : Bool
  reporter : Option String
  reason : Option String
deriving DecidableEq

/-- Modelled from the spec: a rescue case, with exactly the fields of the
spec's data model (§3).  The display index is an `Int` because the sources'
own tests put negative indices on the board. -/
structure Rescue where
  uuid : Option Nat
  client : String
  system : String
  irc_nickname : String
  created_at : DateTime
  updated_at : DateTime
  title : Option String
  code_red : Bool
  status : Status
  outcome : Option Outcome
  platform : Platforms
  quotes : List Quotation
  unidentified_rats : List String
  first_limpet : Option Nat
  rats : List Rat
  mark_for_deletion : MarkForDeletion
  lang_id : String
  board_index : Option Int
deriving DecidableEq

/-! ## JSON documents

The converter passes around parsed JSON as Python dicts/lists; these are
embedded as the `JVal` inductive.  `JVal.juuid u` is the Python string
`str(u)` for a UUID with integer value `u` (kept abstract: the converter
only ever round-trips it through `UUID(·, version=4)`). -/

inductive JVal where
  | null
  | jbool (b : Bool)
  | jint (i : Int)
  | jstr (s : String)
  | juuid (u : Nat)
  | jlist (xs : List JVal)
  | jobj (fields : List (String × JVal))

/-- The errors a decoding run can raise.  `ratFetchRequired` marks the spot
where `_rescue_from_json` would leave pure code and `await` a network fetch
(`get_rat_by_id`) for a rat missing from the cache. -/
inductive DecodeError where
  | keyError (key : String)
  | typeError (expected : String)
  | valueError (what : String)
  | ratFetchRequired (uuid : Nat)
deriving DecidableEq

/-- The `json[k]`: indexing a dict, `KeyError` if the key is missing. -/
def jGet (j : JVal) (k : String) : Except DecodeError JVal :=
  match j with
  | .jobj fields =>
    match pyGet fields k with
    | some v => .ok v
    | none => .error (.keyError k)
  | _ => .error (.typeError "dict")

/-- The `json.get(k, dflt)`. -/
def jGetD (j : JVal) (k : String) (dflt : JVal) : JVal :=
  match j with
  | .jobj fields =>
    match pyGet fields k with
    | some v => v
    | none => dflt
  | _ => dflt

/-- The dynamic-typing boundary: a value stored into a `str`-typed entity
field. -/
def asStr : JVal → Except DecodeError String
  | .jstr s => .ok s
  | _ => .error (.typeError "str")

/-- A value stored into an optional-`str` field (`None` ↦ `none`). -/
def asOptStr : JVal → Except DecodeError (Option String)
  | .null => .ok none
  | .jstr s => .ok (some s)
  | _ => .error (.typeError "Optional str")

/-- A value stored into a `bool`-typed field. -/
def asBool : JVal → Except DecodeError Bool
  | .jbool b => .ok b
  | _ => .error (.typeError "bool")

/-- A value stored into an optional-`int` field (the board index). -/
def asOptInt : JVal → Except DecodeError (Option Int)
  | .null => .ok none
  | .jint i => .ok (some i)
  | _ => .error (.typeError "Optional int")

/-- A value that must be a JSON list. -/
def asList : JVal → Except DecodeError (List JVal)
  | .jlist xs => .ok xs
  | _ => .error (.typeError "list")

/-- The `UUID(x, version=4)`: re-read a canonical UUID string and force the
version/variant bits; anything else (including the string `"None"` produced
by `str(None)`) raises. -/
def asUuidV4 : JVal → Except DecodeError Nat
  | .juuid u => .ok (forceV4 u)
  | _ => .error (.valueError "badly formed hexadecimal UUID string")

/-- The `datetime.strptime(x, fmt)` with the converter's fixed format. -/
def asDT (zSuffix : Bool) : JVal → Except DecodeError DateTime
  | .jstr s =>
    match strptime zSuffix s with
    | some dt => .ok dt
    | none => .error (.valueError "time data does not match format")
  | _ => .error (.typeError "str")

/-- A Python for-loop that builds a list, short-circuiting on a raised
exception. -/
def exceptMapM {α β : Type} (f : α → Except DecodeError β) :
    List α → Except DecodeError (List β)
  | [] => .ok []
  | x :: xs => do
    let y ← f x
    let ys ← exceptMapM f xs
    pure (y :: ys)

/-- The `Status[name]`: enum lookup by member name (`KeyError` when absent). -/
def statusFromName (s : String) : Except DecodeError Status :=
  if s = "OPEN" then .ok .OPEN
  else if s = "INACTIVE" then .ok .INACTIVE
  else if s = "CLOSED" then .ok .CLOSED
  else .error (.keyError s)

/-- The `Platforms[name]`. -/
def platformFromName (s : String) : Except DecodeError Platforms :=
  if s = "PC" then .ok .PC
  else if s = "XB" then .ok .XB
  else if s = "PS4" then .ok .PS4
  else if s = "DEFAULT" then .ok .DEFAULT
  else .error (.keyError s)

/-- An optional string encoded into JSON (`None` ↦ `null`). -/
def jOptStr : Option String → JVal
  | none => .null
  | some s => .jstr s

/-! ## The v2.0 converter (`Modules/api/v20.py`) -/

/-- The `WebsocketAPIHandler20._quotation_to_json`. -/
def quotation_to_json (quote : Quotation) : JVal :=
  .jobj [("message", .jstr quote.message),
         ("createdAt", .jstr (strftime false quote.created_at)),
         ("updatedAt", .jstr (strftime false quote.updated_at)),
         ("author", .jstr quote.author),
         ("lastAuthor", .jstr quote.last_author)]

/-- The `WebsocketAPIHandler20._quotation_from_json`. -/
def quotation_from_json (j : JVal) : Except DecodeError Quotation := do
  let message ← asStr (← jGet j "message")
  let created_at ← asDT false (← jGet j "createdAt")
  let updated_at ← asDT false (← jGet j "updatedAt")
  let author ← asStr (← jGet j "author")
  let last_author ← asStr (← jGet j "lastAuthor")
  pure ⟨message, author, created_at, updated_at, last_author⟩

/-- The `WebsocketAPIHandler20._mfd_to_json`. -/
def mfd_to_json (mfd : MarkForDeletion) : JVal :=
  .jobj [("marked", .jbool mfd.marked),
         ("reporter", jOptStr mfd.reporter),
         ("reason", jOptStr mfd.reason)]

/-- The `WebsocketAPIHandler20._mfd_from_json`: translate the wire sentinels
`"Noone."`/`"None."` to true absence, then build the marker from the dict's
entries. -/
def mfd_from_json (j : JVal) : Except DecodeError MarkForDeletion := do
  let rep0 := jGetD j "reporter" .null
  let rep1 := match rep0 with
    | .jstr s => if s = "Noone." then JVal.null else .jstr s
    | v => v
  let rea0 := jGetD j "reason" .null
  let rea1 := match rea0 with
    | .jstr s => if s = "None." then JVal.null else .jstr s
    | v => v
  let marked ← asBool (← jGet j "marked")
  let reporter ← asOptStr rep1
  let reason ← asOptStr rea1
  pure ⟨marked, reporter, reason⟩

/-- The platform encoding inside `_rescue_to_json`:
`None if rescue.platform is Platforms.DEFAULT else rescue.platform.name.lower()`. -/
def platform_to_json (p : Platforms) : JVal :=
  match p with
  | .DEFAULT => .null
  | p => .jstr (pyLower (platformName p))

/-- The platform decoding inside `_rescue_from_json` (lines 237–240):
`Platforms.DEFAULT` for `null`, else `Platforms[value.upper()]`. -/
def platform_from_json (v : JVal) : Except DecodeError Platforms :=
  match v with
  | .null => pure .DEFAULT
  | v => do platformFromName (pyUpper (← asStr v))

/-- The body of `_rescue_from_json`'s rats loop: read the relationship
entry's id, take the rat from `self._rat_cache` if present, else the source
would `await self.get_rat_by_id(rat_id)` (modelled as `ratFetchRequired`). -/
def ratRefDecode (ratCache : List (Nat × Rat)) (rj : JVal) :
    Except DecodeError Rat := do
  let rid ← asUuidV4 (← jGet rj "id")
  match pyGet ratCache rid with
  | some rat => pure rat
  | none => throw (.ratFetchRequired rid)

/-- The body of `_rescue_from_json`'s epics loop: the source checks the
entry's id against `self._rat_cache` (sic) and then indexes
`self._epic_cache`; for a freshly initialized handler that cache is empty,
so the index raises `KeyError`; otherwise the entry is only logged. -/
def epicRefCheck (ratCache : List (Nat × Rat)) (ej : JVal) :
    Except DecodeError Unit := do
  let eid ← asUuidV4 (← jGet ej "id")
  if pyMem ratCache eid then throw (DecodeError.keyError "_epic_cache")
  else pure ()

/-- The `WebsocketAPIHandler20._rescue_to_json`: the flat attribute payload, with
`data.boardIndex` appended only when a board index is assigned. -/
def rescue_to_json (rescue : Rescue) : JVal :=
  .jobj [("client", .jstr rescue.client),
         ("system", .jstr rescue.system),
         ("status", .jstr (pyLower (statusName rescue.status))),
         ("unidentifiedRats", .jlist (rescue.unidentified_rats.map .jstr)),
         ("createdAt", .jstr (strftime true rescue.created_at)),
         ("updatedAt", .jstr (strftime true rescue.updated_at)),
         ("quotes", .jlist (rescue.quotes.map quotation_to_json)),
         ("title", jOptStr rescue.title),
         ("codeRed", .jbool rescue.code_red),
         ("firstLimpetId",
           match rescue.first_limpet with
           | some u => .juuid u
           | none => .jstr "None"),
         ("platform", platform_to_json rescue.platform),
         ("data",
           .jobj ([("IRCNick", .jstr rescue.irc_nickname),
                   ("langID", .jstr (pyLower rescue.lang_id)),
                   ("markedForDeletion", mfd_to_json rescue.mark_for_deletion)] ++
                  (match rescue.board_index with
                   | some i => [("boardIndex", JVal.jint i)]
                   | none => [])))]

/-- The `WebsocketAPIHandler20._rescue_from_json`.  `ratCache` is
`self._rat_cache`; a rat id missing from it makes the source `await` a
network fetch, modelled as the `ratFetchRequired` error.  The epics loop
looks a cached epic up in `self._rat_cache` (as the source does) and then
reads `self._epic_cache` — modelled for a freshly initialized handler whose
epic cache is empty, where that read raises `KeyError`. -/
def rescue_from_json (ratCache : List (Nat × Rat)) (j : JVal) :
    Except DecodeError Rescue := do
  let uuid ← asUuidV4 (← jGet j "id")
  let attrs ← jGet j "attributes"
  let clientJ ← jGet attrs "client"
  let client ← asStr clientJ
  let system ← asStr (← jGet attrs "system")
  let dataJ ← jGet attrs "data"
  let irc_nickname ← asStr (jGetD dataJ "IRCNick" clientJ)
  let created_at ← asDT true (← jGet attrs "createdAt")
  let updated_at ← asDT true (← jGet attrs "updatedAt")
  let unidentified_rats ← exceptMapM asStr (← asList (← jGet attrs "unidentifiedRats"))
  let quotes ← exceptMapM quotation_from_json (← asList (← jGet attrs "quotes"))
  let title ← asOptStr (← jGet attrs "title")
  let status ← statusFromName (pyUpper (← asStr (← jGet attrs "status")))
  let code_red ← asBool (← jGet attrs "codeRed")
  let first_limpet ← asUuidV4 (← jGet attrs "firstLimpetId")
  let board_index ← asOptInt (jGetD (jGetD attrs "data" (.jobj [])) "boardIndex" .null)
  let mark_for_deletion ←
    mfd_from_json (jGetD (jGetD attrs "data" (.jobj [])) "markedForDeletion" (.jobj []))
  let lang_id ← asStr (jGetD (jGetD attrs "data" (.jobj [])) "langID" (.jstr "en"))
  let platform ← platform_from_json (← jGet attrs "platform")
  let rels ← jGet j "relationships"
  let ratsJ ← asList (← jGet (← jGet rels "rats") "data")
  let rats ← exceptMapM (ratRefDecode ratCache) ratsJ
  let epicsJ ← asList (← jGet (← jGet rels "epics") "data")
  let _ ← exceptMapM (epicRefCheck ratCache) epicsJ
  pure { uuid := some uuid, client, system, irc_nickname, created_at,
         updated_at, title, code_red, status, outcome := none, platform,
         quotes, unidentified_rats, first_limpet := some first_limpet, rats,
         mark_for_deletion, lang_id, board_index }

/-- The full resource document the v2.0 API wraps a rescue's attributes in:
`id`, `attributes` and `relationships` (test data `rescue1.json` has this
shape).  `rescue_to_json` produces only the `attributes` payload, so this
wrapper is what has to be put around it before `rescue_from_json` can read
it back. -/
def resourceDoc (rescue : Rescue) : JVal :=
  .jobj [("id",
           match rescue.uuid with
           | some u => .juuid u
           | none => .null),
         ("attributes", rescue_to_json rescue),
         ("relationships",
           .jobj [("rats",
                    .jobj [("data",
                             .jlist (rescue.rats.map fun r =>
                               .jobj [("id", JVal.juuid r.uuid)]))]),
                  ("epics", .jobj [("data", .jlist [])])])]

/-! ## The rescue board (`Modules/Rat_Board.py`) -/

/-- The board's state: `self._rescues`, a dict from display index to rescue. -/
structure RatBoard where
  rescues : List (Int × Rescue)
deriving DecidableEq

/-- The outcome of `RatBoard.append`: the rescue was stored at its index, or
`IndexNotFreeError` was raised, or — when the rescue's `board_index` is falsy
(`None` or `0`) — the method fell through its only `if` and returned without
doing anything. -/
inductive AppendResult where
  | stored
  | indexNotFreeError
  | skipped
deriving DecidableEq

/-- The `RatBoard.append(rescue, overwrite)`:  guarded by the *truthiness* of
`rescue.board_index`; store when `overwrite` is set or the index is free,
raise `IndexNotFreeError` otherwise. -/
def RatBoard.append (board : RatBoard) (rescue : Rescue) (overwrite : Bool) :
    RatBoard × AppendResult :=
  match rescue.board_index with
  | none => (board, .skipped)
  | some i =>
    if i = 0 then (board, .skipped)
    else if overwrite || !(pyMem board.rescues i) then
      (⟨pySet board.rescues i rescue⟩, .stored)
    else
      (board, .indexNotFreeError)

/-- The `RatBoard.__contains__(other)`: scan the stored rescues; a match is an
equal `case_id` (`None == None` included, as in Python) or, failing that,
equal `client` **and** `created_at`. -/
def RatBoard.contains (board : RatBoard) (other : Rescue) : Bool :=
  board.rescues.any fun p =>
    p.2.uuid == other.uuid ||
      (p.2.client == other.client && p.2.created_at == other.created_at)

/-- The `RatBoard.modify(rescue)`: the source is an unimplemented stub — it
returns `False` and leaves the board untouched. -/
def RatBoard.modify (board : RatBoard) (_rescue : Rescue) : RatBoard × Bool :=
  (board, false)

/-- The `RatBoard.find_by_index(index)`. -/
def RatBoard.find_by_index (board : RatBoard) (index : Int) : Option Rescue :=
  pyGet board.rescues index

/-- Modelled from the spec: the same-case criterion as the spec words it
("two cases are considered the *same case* if their identifiers match, OR —
before an identifier exists — if client name and creation timestamp both
match exactly"): matching identifiers means both cases carry one and they
are equal; the key-attribute fallback applies only while an identifier is
absent. -/
def specSameCase (r other : Rescue) : Bool :=
  (match r.uuid, other.uuid with
   | some u, some u' => u == u'
   | _, _ => false) ||
  ((r.uuid == none || other.uuid == none) &&
    (r.client == other.client && r.created_at == other.created_at))

/-! ## The websocket session (`Modules/api/websocket.py`)

The handler's correlation state is `self._waiting_requests` (a set of
request UUIDs) and `self._request_responses` (a dict from UUID to response
document).  An inbound message, already JSON-parsed, is embedded as `Doc`:
only the fields `_message_handler` and `_retrieve_response` inspect are kept
structured, and `payload` stands for the rest of the document (so that
distinct documents stay distinct). -/

/-- A parsed inbound document.  `reqId = none` models a document without a
`meta.request_id` key (`KeyError` path); `reqId = some none` one whose
`meta.request_id` is not a valid UUID (`ValueError` path);
`reqId = some (some u)` a well-formed response correlation id. -/
structure Doc where
  hasIncluded : Bool
  reqId : Option (Option Nat)
  code : Option String
  event : Option String
  payload : Nat
deriving DecidableEq

/-- The correlation state of one handler. -/
structure HandlerState where
  waiting : List Nat
  responses : List (Nat × Doc)
deriving DecidableEq

/-- What one iteration of `_message_handler` did with a message, besides
updating the state: each constructor is one of the logging/dispatch branches
of the source. -/
inductive MsgAction where
  | errorCodeLogged (code : String)
  | updateHandled (event : String)
  | notResponseLogged
  | invalidIdLogged
  | unexpectedResponseLogged (rid : Nat)
  | delivered (rid : Nat)
deriving DecidableEq

/-- One iteration of `_message_handler` on an already-parsed message: extract
`meta.request_id`; without one, classify as error code, push event or junk;
with an invalid one, log; with a valid one, deliver to the waiting request
(store the document, unregister the waiter) or log it as unexpected and drop
it.  (`_cache_included` touches only the subclass caches, not the
correlation state.) -/
def messageStep (st : HandlerState) (doc : Doc) : HandlerState × MsgAction :=
  match doc.reqId with
  | none =>
    match doc.code with
    | some c => (st, .errorCodeLogged c)
    | none =>
      match doc.event with
      | some e => (st, .updateHandled e)
      | none => (st, .notResponseLogged)
  | some none => (st, .invalidIdLogged)
  | some (some rid) =>
    if rid ∈ st.waiting then
      ({ waiting := st.waiting.filter (fun x => x ≠ rid),
         responses := pySet st.responses rid doc }, .delivered rid)
    else
      (st, .unexpectedResponseLogged rid)

/-- Fold a whole arrival order of inbound messages through the handler. -/
def runMessages (st : HandlerState) (msgs : List Doc) : HandlerState :=
  msgs.foldl (fun s d => (messageStep s d).1) st

/-- The correlation-state invariant: response-dict keys are distinct, every
buffered response is stored under its own correlation id, and an id with a
buffered response is no longer in the waiting set. -/
def responsesInv (st : HandlerState) : Prop :=
  (st.responses.map Prod.fst).Nodup ∧
  (∀ k doc, pyGet st.responses k = some doc → doc.reqId = some (some k)) ∧
  (∀ k, pyMem st.responses k = true → k ∉ st.waiting)

/-- The default `max_wait` of `_retrieve_response`, in hundredths of a
second (each poll iteration sleeps 0.01 s). -/
def retrieveMaxWaitDefault : Nat := 600

/-- The typed return-code exception classes of `Modules/api/exceptions.py`
(`UnauthorizedError` / `ForbiddenError` / `InternalAPIError`). -/
inductive ExcKind where
  | unauthorized
  | forbidden
  | internalServer
deriving DecidableEq

/-- How `_retrieve_response` returned: the response document; the up-front
`APIError` ("already consumed or never queued"); the `TimeoutError` naming
the request id; the `APIError` for a vanished response; a raised typed
return-code exception carrying its `response` attribute; or the implicit
`None` return after logging an unknown error code. -/
inductive RetrieveResult where
  | ok (doc : Doc)
  | apiErrorConsumed (rid : Nat)
  | timeoutError (rid : Nat)
  | apiErrorUnavailable (rid : Nat)
  | raised (kind : ExcKind) (response : Option Doc)
  | returnedNone
deriving DecidableEq

/-- The `_retrieve_response(request_id)`, as a function of the correlation state
once its poll loop exits: if the id is neither waiting nor answered, the
up-front `APIError`; if the id is still waiting (no response arrived within
the `max_wait` polls), unregister it and raise `TimeoutError`; otherwise pop
the response and either return it or map its error code to a typed
exception — raised bare, so the exception's `response` attribute keeps its
default `None`.  Deliveries that happen *during* the wait are modelled by
applying `messageStep` before this function. -/
def retrieveResponse (st : HandlerState) (rid : Nat) :
    HandlerState × RetrieveResult :=
  if ¬rid ∈ st.waiting ∧ pyMem st.responses rid = false then
    (st, .apiErrorConsumed rid)
  else if rid ∈ st.waiting then
    ({ st with waiting := st.waiting.filter (fun x => x ≠ rid) },
     .timeoutError rid)
  else
    match pyGet st.responses rid with
    | none => (st, .apiErrorUnavailable rid)
    | some doc =>
      let st' := { st with responses := pyDel st.responses rid }
      match doc.code with
      | some c =>
        if c = "unauthorized" then (st', .raised .unauthorized none)
        else if c = "forbidden" then (st', .raised .forbidden none)
        else if c = "internal_server" then (st', .raised .internalServer none)
        else (st', .returnedNone)
      | none => (st', .ok doc)

/-! ## `connect()` and the version handshake -/

/-- The handshake message: `meta["API-Version"]` when both the `meta` key
and the `API-Version` key are present (the source treats the two absences
identically), else `none`. -/
structure HandshakeMsg where
  apiVersionToken : Option String
deriving DecidableEq

/-- What `parse_connect_event` did: returned a version; logged
"Did not receive version field from API" and returned `None`; or raised the
`ValueError` that `Version(token)` raises for an unknown token. -/
inductive ParseConnectResult where
  | version (v : Version)
  | warnedNone
  | raisedValueError (tok : String)
deriving DecidableEq

/-- The `parse_connect_event(message)`. -/
def parse_connect_event (m : HandshakeMsg) : ParseConnectResult :=
  match m.apiVersionToken with
  | some tok =>
    match versionOfToken tok with
    | some v => .version v
    | none => .raisedValueError tok
  | none => .warnedNone

/-- The first message received after opening the channel, after
`json.loads`: either unparseable (`JSONDecodeError`) or a parsed handshake. -/
inductive ConnectMsg where
  | unparseable
  | msg (m : HandshakeMsg)
deriving DecidableEq

/-- The exception `connect()` raised, if any.  `attributeErrorNoneVersion` is
the `AttributeError` Python raises evaluating `version.value` with
`version = None` while building the `MismatchedVersionError` arguments. -/
inductive ConnectError where
  | alreadyConnected
  | apiParseError
  | valueErrorBadToken (tok : String)
  | mismatchedVersion (handlerVer apiVer : String)
  | attributeErrorNoneVersion
deriving DecidableEq

/-- The observable outcome of one `connect()` call: the exception raised (if
any), whether the websocket channel was opened, whether `close()` was called
on it before returning, and how many listener (dispatch-loop) tasks the call
created. -/
structure ConnectOutcome where
  error : Option ConnectError
  channelOpened : Bool
  closeCalled : Bool
  listenerTasksStarted : Nat
deriving DecidableEq

/-- The `BaseWebsocketAPIHandler.connect()` on a handler whose compiled-in
version is `ownVersion`: refuse when already connected; open the channel;
parse the handshake (`JSONDecodeError` ↦ `APIError`); compare versions —
a differing parsed version closes the channel and raises
`MismatchedVersionError(own.value, got.value)`, a `None` version closes the
channel and blows up on `None.value`, an unknown token propagates the
`ValueError` with the channel left open; on a match, start exactly one
listener task. -/
def connect (alreadyConnected : Bool) (ownVersion : Version)
    (incoming : ConnectMsg) : ConnectOutcome :=
  if alreadyConnected then
    ⟨some .alreadyConnected, false, false, 0⟩
  else
    match incoming with
    | .unparseable => ⟨some .apiParseError, true, false, 0⟩
    | .msg m =>
      match parse_connect_event m with
      | .raisedValueError tok => ⟨some (.valueErrorBadToken tok), true, false, 0⟩
      | .version v =>
        if v ≠ ownVersion then
          ⟨some (.mismatchedVersion ownVersion.value v.value), true, true, 0⟩
        else
          ⟨none, true, false, 1⟩
      | .warnedNone => ⟨some .attributeErrorNoneVersion, true, true, 0⟩

/-! ## Concrete values for evaluation -/

/-- A small concrete rescue with the given identifier, client, creation
second and board index; the remaining fields are fixed. -/
def mkRescue (uuid : Option Nat) (client : String) (sec : Nat)
    (bidx : Option Int) : Rescue :=
  { uuid, client, system := "FUELUM", irc_nickname := client,
    created_at := ⟨2018, 1, 1, 0, 0, sec, 0⟩,
    updated_at := ⟨2018, 1, 1, 0, 0, sec, 0⟩,
    title := none, code_red := false, status := .OPEN, outcome := none,
    platform := .PC, quotes := [], unidentified_rats := [],
    first_limpet := none, rats := [],
    mark_for_deletion := ⟨false, none, none⟩, lang_id := "en",
    board_index := bidx }

/-- A UUID integer whose version-4/variant bits are already set
(`forceV4` fixes it). -/
def sampleUuid : Nat := 2 ^ 78 + 2 ^ 63

/-- A second such UUID integer. -/
def sampleUuid2 : Nat := 2 ^ 78 + 2 ^ 63 + 1

/-- A concrete quotation. -/
def sampleQuote : Quotation :=
  ⟨"RATSIGNAL - CMDR Some Client", "Mecha", ⟨2018, 1, 7, 22, 48, 38, 123456⟩,
   ⟨2018, 1, 7, 22, 48, 38, 123456⟩, "Mecha"⟩

/-- A concrete rat. -/
def sampleRat : Rat := ⟨sampleUuid2, "Rat1", .PC⟩

/-- A concrete, fully populated rescue (fashioned after the repository's
`rescue1` test data). -/
def sampleRescue : Rescue :=
  { uuid := some sampleUuid, client := "Some Client",
    system := "ALPHA CENTAURI", irc_nickname := "Some_Client",
    created_at := ⟨2018, 1, 7, 22, 48, 38, 123000⟩,
    updated_at := ⟨2018, 1, 8, 10, 34, 40, 123000⟩,
    title := some "Operation Go Away", code_red := false, status := .OPEN,
    outcome := none, platform := .PC, quotes := [sampleQuote],
    unidentified_rats := ["unable_to_use_nickserv[PC]"],
    first_limpet := some sampleUuid2, rats := [sampleRat],
    mark_for_deletion := ⟨false, none, none⟩, lang_id := "en",
    board_index := some 9 }

/-- A rat cache holding exactly the sample rescue's assigned rat. -/
def sampleRatCache : List (Nat × Rat) := [(sampleUuid2, sampleRat)]

/-- A response document carrying the `unauthorized` error code for request
id 1. -/
def unauthorizedDoc : Doc := ⟨false, some (some 1), some "unauthorized", none, 0⟩

/-- A handler state in which that response has been delivered. -/
def unauthorizedState : HandlerState := ⟨[], [(1, unauthorizedDoc)]⟩

/-- A plain response document (no error code) for request id `i`. -/
def docFor (i : Nat) : Doc := ⟨false, some (some i), none, none, i⟩

/-- A rescue carrying display index 0. -/
def rescueAtZero : Rescue := mkRescue (some 100) "ClientA" 1 (some 0)

/-- A second, different rescue also carrying display index 0. -/
def rescueAtZeroNew : Rescue := mkRescue (some 101) "ClientB" 2 (some 0)

/-- A board on which index 0 is occupied. -/
def boardZero : RatBoard := ⟨[(0, rescueAtZero)]⟩

/-- A rescue stored at index 1. -/
def rescueOld : Rescue := mkRescue (some 110) "ClientC" 3 (some 1)

/-- A replacement rescue for the same index 1. -/
def rescueNew : Rescue := mkRescue (some 111) "ClientC" 3 (some 1)

/-- A board on which index 1 is occupied by `rescueOld`. -/
def boardOne : RatBoard := ⟨[(1, rescueOld)]⟩

/-- A stored rescue with identifier 10. -/
def attrStored : Rescue := mkRescue (some 10) "SharedClient" 5 (some 2)

/-- A probe rescue with a *different* identifier but the same client and
creation timestamp as `attrStored`. -/
def attrOther : Rescue := mkRescue (some 20) "SharedClient" 5 none

/-- A board holding exactly `attrStored`. -/
def attrBoard : RatBoard := ⟨[(2, attrStored)]⟩

/-! # Lemmas

## Dictionary operations -/

theorem pyGet_pySet_self {α β : Type} [DecidableEq α] (m : List (α × β))
    (k : α) (v : β) : pyGet (pySet m k v) k = some v := by
  induction m with
  | nil => simp [pySet, pyGet]
  | cons p m ih =>
    by_cases h : p.1 = k
    · simp [pySet, pyGet, h]
    · simp [pySet, pyGet, h, ih]

theorem pyGet_eq_none_of_not_mem {α β : Type} [DecidableEq α]
    (m : List (α × β)) (k : α) (h : k ∉ m.map Prod.fst) :
    pyGet m k = none := by
  induction m with
  | nil => rfl
  | cons p m ih =>
    simp only [List.map_cons, List.mem_cons] at h
    push_neg at h
    simp [pyGet, Ne.symm h.1, ih h.2]

theorem pyGet_pySet_ne {α β : Type} [DecidableEq α] (m : List (α × β))
    (k k' : α) (v : β) (h : k' ≠ k) : pyGet (pySet m k v) k' = pyGet m k' := by
  induction m with
  | nil => simp [pySet, pyGet, Ne.symm h]
  | cons p m ih =>
    by_cases hp : p.1 = k
    · simp [pySet, hp, pyGet, Ne.symm h]
    · simp [pySet, hp, pyGet, ih]

theorem keys_pySet {α β : Type} [DecidableEq α] (m : List (α × β)) (k : α)
    (v : β) (h : (m.map Prod.fst).Nodup) :
    ((pySet m k v).map Prod.fst).Nodup ∧
      ∀ a, a ∈ (pySet m k v).map Prod.fst → a = k ∨ a ∈ m.map Prod.fst := by
  induction m with
  | nil => simp [pySet]
  | cons p m ih =>
    simp only [List.map_cons, List.nodup_cons] at h
    by_cases hp : p.1 = k
    · subst hp
      refine ⟨?_, ?_⟩
      · simpa [pySet, List.nodup_cons] using h
      · intro a ha
        simpa [pySet] using ha
    · obtain ⟨ihn, ihm⟩ := ih h.2
      refine ⟨?_, ?_⟩
      · simp only [pySet, if_neg hp, List.map_cons, List.nodup_cons]
        refine ⟨?_, ihn⟩
        intro hmem
        rcases ihm _ hmem with rfl | hmem'
        · exact hp rfl
        · exact h.1 hmem'
      · intro a ha
        simp only [pySet, if_neg hp, List.map_cons, List.mem_cons] at ha
        rcases ha with rfl | ha
        · simp
        · rcases ihm _ ha with rfl | h'
          · exact Or.inl rfl
          · exact Or.inr (by simp [h'])

theorem pyGet_pyDel_self {α β : Type} [DecidableEq α] (m : List (α × β))
    (k : α) (h : (m.map Prod.fst).Nodup) : pyGet (pyDel m k) k = none := by
  induction m with
  | nil => rfl
  | cons p m ih =>
    simp only [List.map_cons, List.nodup_cons] at h
    by_cases hp : p.1 = k
    · simp only [pyDel, if_pos hp]
      exact pyGet_eq_none_of_not_mem m k (hp ▸ h.1)
    · simp [pyDel, hp, pyGet, ih h.2]

theorem pyGet_pyDel_ne {α β : Type} [DecidableEq α] (m : List (α × β))
    (k k' : α) (h : k' ≠ k) : pyGet (pyDel m k) k' = pyGet m k' := by
  induction m with
  | nil => rfl
  | cons p m ih =>
    by_cases hp : p.1 = k
    · simp [pyDel, hp, pyGet, Ne.symm h]
    · simp [pyDel, hp, pyGet, ih]

theorem pyMem_eq_isSome {α β : Type} [DecidableEq α] (m : List (α × β))
    (k : α) : pyMem m k = (pyGet m k).isSome := rfl

/-! ## Decimal rendering and parsing -/

theorem digitVal_digitChar {d : Nat} (h : d < 10) :
    digitVal (Nat.digitChar d) = d := by
  interval_cases d <;> rfl

theorem isDigit_digitChar {d : Nat} (h : d < 10) :
    (Nat.digitChar d).isDigit = true := by
  interval_cases d <;> rfl

theorem mem_natChars_isDigit {n : Nat} : ∀ c ∈ natChars n, c.isDigit = true := by
  intro c hc
  simp only [natChars, List.mem_reverse, List.mem_map] at hc
  obtain ⟨d, hd, rfl⟩ := hc
  exact isDigit_digitChar (Nat.digits_lt_base (by norm_num) hd)

theorem mem_renderPad_isDigit {w n : Nat} :
    ∀ c ∈ renderPad w n, c.isDigit = true := by
  intro c hc
  simp only [renderPad, padChars, List.mem_append] at hc
  rcases hc with h | h
  · rw [List.eq_of_mem_replicate h]
    rfl
  · exact mem_natChars_isDigit c h

theorem ofDigits_replicate_zero (k : Nat) :
    Nat.ofDigits 10 (List.replicate k 0) = 0 := by
  induction k with
  | zero => simp [Nat.ofDigits]
  | succ k ih => simp [List.replicate, Nat.ofDigits, ih]

theorem val_renderPad (w n : Nat) :
    Nat.ofDigits 10 (((renderPad w n).map digitVal).reverse) = n := by
  have hmap : (natChars n).map digitVal = ((Nat.digits 10 n).map id).reverse := by
    simp only [natChars, List.map_reverse, List.map_map]
    congr 1
    apply List.map_congr_left
    intro d hd
    exact digitVal_digitChar (Nat.digits_lt_base (by norm_num) hd)
  simp only [renderPad, padChars, List.map_append, List.map_replicate,
    List.reverse_append, List.reverse_replicate]
  have : digitVal '0' = 0 := rfl
  rw [this, hmap, List.map_id, List.reverse_reverse, Nat.ofDigits_append,
    ofDigits_replicate_zero, Nat.ofDigits_digits]
  ring

theorem takeWhile_append_all {p : Char → Bool} (l rest : List Char)
    (hl : ∀ c ∈ l, p c = true)
    (hr : ∀ c, rest.head? = some c → p c = false) :
    (l ++ rest).takeWhile p = l ∧ (l ++ rest).dropWhile p = rest := by
  induction l with
  | nil =>
    cases rest with
    | nil => simp
    | cons c t =>
      have := hr c rfl
      simp [List.takeWhile, List.dropWhile, this]
  | cons c t ih =>
    have hc := hl c (by simp)
    obtain ⟨h1, h2⟩ := ih (fun x hx => hl x (by simp [hx]))
    simp [List.takeWhile, List.dropWhile, hc, h1, h2]

theorem readNat_renderPad (w n : Nat) (rest : List Char)
    (hr : ∀ c, rest.head? = some c → c.isDigit = false) :
    readNat (renderPad w n ++ rest) = (n, rest) := by
  obtain ⟨ht, hd⟩ :=
    takeWhile_append_all (renderPad w n) rest mem_renderPad_isDigit hr
  simp [readNat, ht, hd, val_renderPad]

theorem head_cons_not_digit {c : Char} (h : c.isDigit = false)
    (t : List Char) : ∀ x, (c :: t).head? = some x → x.isDigit = false := by
  intro x hx
  simp only [List.head?_cons, Option.some.injEq] at hx
  subst hx
  exact h

theorem head_nil_not_digit :
    ∀ x : Char, ([] : List Char).head? = some x → x.isDigit = false := by
  intro x hx
  simp at hx

theorem readNat_renderPad_cons (w n : Nat) (c : Char) (t : List Char)
    (h : c.isDigit = false) : readNat (renderPad w n ++ c :: t) = (n, c :: t) :=
  readNat_renderPad w n (c :: t) (head_cons_not_digit h t)

theorem readNat_renderPad_nil (w n : Nat) :
    readNat (renderPad w n ++ []) = (n, []) :=
  readNat_renderPad w n [] head_nil_not_digit

theorem expectChar_cons (c : Char) (t : List Char) :
    expectChar c (c :: t) = some t := by
  simp [expectChar]

/-- Parsing inverts rendering for the fixed timestamp formats. -/
theorem strptime_strftime (z : Bool) (dt : DateTime) :
    strptime z (strftime z dt) = some dt := by
  obtain ⟨y, mo, d, h, mi, s, us⟩ := dt
  show parseDTChars z (renderDT z ⟨y, mo, d, h, mi, s, us⟩) = _
  cases z with
  | false =>
    simp only [renderDT, if_neg (by decide : ¬False), Bool.false_eq_true,
      ite_false]
    simp only [parseDTChars,
      readNat_renderPad_cons _ _ '-' _ (by decide),
      readNat_renderPad_cons _ _ 'T' _ (by decide),
      readNat_renderPad_cons _ _ ':' _ (by decide),
      readNat_renderPad_cons _ _ '.' _ (by decide),
      readNat_renderPad_nil, expectChar_cons]
    simp
  | true =>
    simp only [renderDT, ite_true]
    simp only [parseDTChars,
      readNat_renderPad_cons _ _ '-' _ (by decide),
      readNat_renderPad_cons _ _ 'T' _ (by decide),
      readNat_renderPad_cons _ _ ':' _ (by decide),
      readNat_renderPad_cons _ _ '.' _ (by decide),
      readNat_renderPad_cons _ _ 'Z' _ (by decide),
      expectChar_cons]
    simp

/-! ## Converter component round trips -/

theorem exceptBind_ok {α β : Type} (a : α) (f : α → Except DecodeError β) :
    (Except.ok a : Except DecodeError α) >>= f = f a := rfl

theorem exceptPure {α : Type} (a : α) :
    (pure a : Except DecodeError α) = Except.ok a := rfl

theorem asOptStr_jOptStr (o : Option String) : asOptStr (jOptStr o) = .ok o := by
  cases o <;> rfl

theorem status_roundtrip (st : Status) :
    statusFromName (pyUpper (pyLower (statusName st))) = .ok st := by
  cases st <;> rfl

theorem platform_roundtrip (p : Platforms) :
    platform_from_json (platform_to_json p) = .ok p := by
  cases p <;> rfl

theorem quotation_roundtrip (q : Quotation) :
    quotation_from_json (quotation_to_json q) = .ok q := by
  obtain ⟨m, a, c, u, l⟩ := q
  simp [quotation_to_json, quotation_from_json, jGet, pyGet, asStr, asDT,
    strptime_strftime, exceptBind_ok, exceptPure]

theorem mapM_quotation (l : List Quotation) :
    exceptMapM quotation_from_json (l.map quotation_to_json) = .ok l := by
  induction l with
  | nil => rfl
  | cons q t ih =>
    simp [exceptMapM, quotation_roundtrip, ih, exceptBind_ok, exceptPure]

theorem mapM_jstr (l : List String) :
    exceptMapM asStr (l.map JVal.jstr) = .ok l := by
  induction l with
  | nil => rfl
  | cons s t ih =>
    simp [exceptMapM, asStr, ih, exceptBind_ok, exceptPure]

theorem mapM_ratRef (cache : List (Nat × Rat)) (l : List Rat)
    (h : ∀ r ∈ l, forceV4 r.uuid = r.uuid ∧ pyGet cache r.uuid = some r) :
    exceptMapM (ratRefDecode cache)
      (l.map fun r => JVal.jobj [("id", JVal.juuid r.uuid)]) = .ok l := by
  induction l with
  | nil => rfl
  | cons r t ih =>
    obtain ⟨h4, hc⟩ := h r (by simp)
    have hr : ratRefDecode cache (JVal.jobj [("id", JVal.juuid r.uuid)]) =
        .ok r := by
      simp [ratRefDecode, jGet, pyGet, asUuidV4, h4, hc, exceptBind_ok,
        exceptPure]
    simp [exceptMapM, hr, ih (fun x hx => h x (by simp [hx])),
      exceptBind_ok, exceptPure]

theorem mfd_roundtrip (m : MarkForDeletion)
    (hrep : m.reporter ≠ some "Noone.") (hrea : m.reason ≠ some "None.") :
    mfd_from_json (mfd_to_json m) = .ok m := by
  obtain ⟨mk, rep, rea⟩ := m
  simp only at hrep hrea
  cases rep with
  | none =>
    cases rea with
    | none => rfl
    | some s =>
      have hs : ¬s = "None." := fun hh => hrea (by rw [hh])
      simp [mfd_to_json, mfd_from_json, jOptStr, jGet, jGetD, pyGet, asBool,
        asOptStr, hs, exceptBind_ok, exceptPure]
  | some s =>
    have hs : ¬s = "Noone." := fun hh => hrep (by rw [hh])
    cases rea with
    | none =>
      simp [mfd_to_json, mfd_from_json, jOptStr, jGet, jGetD, pyGet, asBool,
        asOptStr, hs, exceptBind_ok, exceptPure]
    | some s' =>
      have hs' : ¬s' = "None." := fun hh => hrea (by rw [hh])
      simp [mfd_to_json, mfd_from_json, jOptStr, jGet, jGetD, pyGet, asBool,
        asOptStr, hs, hs', exceptBind_ok, exceptPure]

/-- C6 (amended): `_rescue_to_json` emits only the flat attribute payload,
so the decodable document is `resourceDoc E` — the payload wrapped under
`id`/`attributes`/`relationships`.  With that wrapper, decoding reconstructs
the rescue field-for-field, provided the write-only or lossy spots are
benign: the rescue carries a version-4 id and first-limpet id, no outcome
(the converter drops `outcome`), an already-lowercase language id, no
sentinel-string deletion-marker fields, and all its assigned rats present in
the handler's rat cache. -/
theorem c6_roundtrip_amended (cache : List (Nat × Rat)) (E : Rescue)
    (u fl : Nat)
    (hu : E.uuid = some u) (hu4 : forceV4 u = u)
    (hfl : E.first_limpet = some fl) (hfl4 : forceV4 fl = fl)
    (hout : E.outcome = none)
    (hlang : pyLower E.lang_id = E.lang_id)
    (hrep : E.mark_for_deletion.reporter ≠ some "Noone.")
    (hrea : E.mark_for_deletion.reason ≠ some "None.")
    (hrats : ∀ r ∈ E.rats, forceV4 r.uuid = r.uuid ∧
       pyGet cache r.uuid = some r) :
    rescue_from_json cache (resourceDoc E) = .ok E := by
  obtain ⟨uu, client, system, irc, ca, ua, title, cr, st, outc, plat, qs,
    unid, flf, rats, mfd, lang, bidx⟩ := E
  simp only at hu hfl hout hlang hrep hrea hrats
  subst hu hfl hout
  cases bidx with
  | none =>
    simp [rescue_from_json, resourceDoc, rescue_to_json, jGet, jGetD, pyGet,
      asStr, asOptStr_jOptStr, asBool, asUuidV4, asDT, asList, asOptInt,
      strptime_strftime, exceptBind_ok, exceptPure, hu4, hfl4, mapM_jstr,
      mapM_quotation, mapM_ratRef cache rats hrats,
      mfd_roundtrip mfd hrep hrea, status_roundtrip, platform_roundtrip,
      hlang, exceptMapM, List.cons_append, List.nil_append]
  | some i =>
    simp [rescue_from_json, resourceDoc, rescue_to_json, jGet, jGetD, pyGet,
      asStr, asOptStr_jOptStr, asBool, asUuidV4, asDT, asList, asOptInt,
      strptime_strftime, exceptBind_ok, exceptPure, hu4, hfl4, mapM_jstr,
      mapM_quotation, mapM_ratRef cache rats hrats,
      mfd_roundtrip mfd hrep hrea, status_roundtrip, platform_roundtrip,
      hlang, exceptMapM, List.cons_append, List.nil_append]

/-- C6 (counterexample): composing the two cited functions directly fails on
every input — `_rescue_to_json` emits the flat attribute payload, while
`_rescue_from_json` first indexes `json["id"]`, so the literal
`decode(encode(E))` raises `KeyError: id` (shown at the concrete
`sampleRescue`) instead of reconstructing `E`. -/
theorem c6_counterexample :
    rescue_from_json sampleRatCache (rescue_to_json sampleRescue) =
      .error (.keyError "id") := by
  rfl

/-- C6 (witness): the amended round trip evaluated at the concrete
`sampleRescue` with its rat cached. -/
theorem c6_roundtrip_amended_witness :
    rescue_from_json sampleRatCache (resourceDoc sampleRescue) =
      .ok sampleRescue :=
  c6_roundtrip_amended sampleRatCache sampleRescue sampleUuid sampleUuid2
    rfl (by decide) rfl (by decide) rfl rfl (by decide) (by decide)
    (by decide)

/-- C7 (counterexample): a case whose display index is 0 falls through
`append`'s truthiness guard: on an empty board (index 0 unoccupied, so the
claim's "every other situation" demands storage) nothing is stored and no
error is raised. -/
theorem c7_counterexample :
    RatBoard.append ⟨[]⟩ rescueAtZero false = (⟨[]⟩, .skipped) ∧
    AppendResult.skipped ≠ .stored ∧
    rescueAtZero.board_index = some 0 := by
  refine ⟨by decide, by decide, by decide⟩

/-- C7 (amended): for a case carrying a *truthy* display index (present and
nonzero), `append` raises `IndexNotFreeError` when the index is occupied and
`overwrite` is unset, and otherwise stores the case at its index (replacing
any prior entry when `overwrite` is set); a case with an absent or zero
index is silently ignored (see C10). -/
theorem c7_append_amended (board : RatBoard) (rescue : Rescue)
    (overwrite : Bool) (i : Int) (hidx : rescue.board_index = some i)
    (hnz : i ≠ 0) :
    (pyMem board.rescues i = true → overwrite = false →
       RatBoard.append board rescue overwrite = (board, .indexNotFreeError)) ∧
    (overwrite = true ∨ pyMem board.rescues i = false →
       (RatBoard.append board rescue overwrite).2 = .stored ∧
       (RatBoard.append board rescue overwrite).1.rescues =
         pySet board.rescues i rescue ∧
       pyGet (RatBoard.append board rescue overwrite).1.rescues i =
         some rescue) := by
  constructor
  · intro hocc hov
    simp [RatBoard.append, hidx, hnz, hocc, hov]
  · intro h
    rcases h with h | h <;>
      simp [RatBoard.append, hidx, hnz, h, pyGet_pySet_self]

/-- C7 (witness): the amended behaviour evaluated on an empty board and a
case at index 1. -/
theorem c7_append_amended_witness :
    (RatBoard.append ⟨[]⟩ rescueOld false).2 = .stored ∧
    pyGet (RatBoard.append ⟨[]⟩ rescueOld false).1.rescues 1 =
      some rescueOld :=
  ⟨((c7_append_amended ⟨[]⟩ rescueOld false 1 rfl (by decide)).2
      (Or.inr rfl)).1,
   ((c7_append_amended ⟨[]⟩ rescueOld false 1 rfl (by decide)).2
      (Or.inr rfl)).2.2⟩

/-- C8 (counterexample): the membership test also answers `true` when the
stored case and the probe both *have* identifiers and they differ, as long
as client and creation timestamp coincide — which the claim's same-case
criterion (key attributes only "before an identifier exists") rules out.
`attrStored` has id 10, `attrOther` id 20, same client and timestamp. -/
theorem c8_counterexample :
    RatBoard.contains attrBoard attrOther = true ∧
    specSameCase attrStored attrOther = false ∧
    attrBoard.rescues = [(2, attrStored)] := by
  refine ⟨by decide, by decide, by decide⟩

/-- C8 (amended): `__contains__` returns true iff some stored case has an
equal `case_id` (`None == None` included) or an equal client name and
creation timestamp — the key-attribute fallback applies regardless of
whether identifiers exist. -/
theorem c8_contains_amended (board : RatBoard) (other : Rescue) :
    RatBoard.contains board other = true ↔
      ∃ p ∈ board.rescues, p.2.uuid = other.uuid ∨
        (p.2.client = other.client ∧ p.2.created_at = other.created_at) := by
  simp [RatBoard.contains, List.any_eq_true]

/-- C8 (witness): the amended criterion evaluated at the concrete board —
the key-attribute match (differing identifiers notwithstanding) makes
`contains` answer true. -/
theorem c8_contains_amended_witness :
    RatBoard.contains attrBoard attrOther = true :=
  (c8_contains_amended attrBoard attrOther).mpr
    ⟨(2, attrStored), by decide, Or.inr (by decide)⟩

/-- C9 (code_bug evidence): `modify` is an unimplemented stub — for every
board and rescue it returns `False` and changes nothing, even at the
failing input where index 1 is occupied and the claim (and the method's own
docstring) promise replacement. -/
theorem c9_modify_stub :
    (∀ (b : RatBoard) (r : Rescue), RatBoard.modify b r = (b, false)) ∧
    RatBoard.modify boardOne rescueNew = (boardOne, false) ∧
    rescueNew.board_index = some 1 ∧
    pyMem boardOne.rescues 1 = true :=
  ⟨fun _ _ => rfl, by decide, by decide, by decide⟩

/-- C10: a case whose display index is absent or zero (falsy) makes `append`
return silently: no exception, and the board's index map is left completely
unchanged, whatever `overwrite` is. -/
theorem c10_append_falsy (board : RatBoard) (rescue : Rescue)
    (overwrite : Bool)
    (h : rescue.board_index = none ∨ rescue.board_index = some 0) :
    RatBoard.append board rescue overwrite = (board, .skipped) := by
  rcases h with h | h <;> simp [RatBoard.append, h]

/-- C10 (witness): the no-op evaluated at a board occupying index 0 and a
second rescue with index 0, `overwrite = true`. -/
theorem c10_append_falsy_witness :
    RatBoard.append boardZero rescueAtZeroNew true = (boardZero, .skipped) :=
  c10_append_falsy boardZero rescueAtZeroNew true (Or.inr (by decide))

/-- C3 (counterexample): a handshake token different from the client's own
but unknown to the `Version` enum (`"v3.0"` against a v2.0 client) makes
`connect()` propagate the `ValueError` from `Version(...)`: no
version-mismatch error is raised and `close()` is never called, so the
channel stays open. -/
theorem c3_counterexample :
    connect false Version.V_20 (.msg ⟨some "v3.0"⟩) =
      ⟨some (.valueErrorBadToken "v3.0"), true, false, 0⟩ ∧
    ConnectError.valueErrorBadToken "v3.0" ≠
      .mismatchedVersion "v2.0" "v3.0" := by
  refine ⟨by decide, by decide⟩

/-- C3 (amended): on a disconnected session — a handshake reporting a
*known* version token different from the client's own fails with the
version-mismatch error carrying both versions and closes the channel; a
matching token succeeds with exactly one dispatch loop started; an unknown
token fails with a `ValueError` and leaves the channel open. -/
theorem c3_connect_amended (own v : Version) (tok : String) :
    (versionOfToken tok = some v → v ≠ own →
       connect false own (.msg ⟨some tok⟩) =
         ⟨some (.mismatchedVersion own.value v.value), true, true, 0⟩) ∧
    (tok = own.value →
       connect false own (.msg ⟨some tok⟩) = ⟨none, true, false, 1⟩) ∧
    (versionOfToken tok = none →
       connect false own (.msg ⟨some tok⟩) =
         ⟨some (.valueErrorBadToken tok), true, false, 0⟩) := by
  refine ⟨?_, ?_, ?_⟩
  · intro h1 h2
    simp [connect, parse_connect_event, h1, h2]
  · intro h
    subst h
    have hv : versionOfToken own.value = some own := by cases own <;> rfl
    simp [connect, parse_connect_event, hv]
  · intro h
    simp [connect, parse_connect_event, h]

/-- C3 (witness): the amended behaviour at concrete tokens — a v2.0 client
against a `"v2.1"` handshake (mismatch) and against `"v2.0"` (success). -/
theorem c3_connect_amended_witness :
    connect false Version.V_20 (.msg ⟨some "v2.1"⟩) =
      ⟨some (.mismatchedVersion "v2.0" "v2.1"), true, true, 0⟩ ∧
    connect false Version.V_20 (.msg ⟨some "v2.0"⟩) =
      ⟨none, true, false, 1⟩ :=
  ⟨(c3_connect_amended Version.V_20 Version.V_21 "v2.1").1 (by decide)
     (by decide),
   (c3_connect_amended Version.V_20 Version.V_20 "v2.0").2.1 rfl⟩

/-- C4 (counterexample): on a handshake without the version field, the
parser does warn and return `None`, but `connect()` then *fails* — it closes
the channel and raises (an `AttributeError` while building the mismatch
error) — rather than succeeding as the claim states. -/
theorem c4_counterexample :
    parse_connect_event ⟨none⟩ = .warnedNone ∧
    connect false Version.V_20 (.msg ⟨none⟩) =
      ⟨some .attributeErrorNoneVersion, true, true, 0⟩ := by
  refine ⟨rfl, by decide⟩

/-- C4 (amended): `parse_connect_event` tolerates the missing version field
(logged warning, `None` returned), but `connect()` then treats the `None`
version as a mismatch: for every client version it closes the channel and
fails with an `AttributeError` evaluating `None.value`, starting no dispatch
loop — the connection does not proceed as if versions matched. -/
theorem c4_connect_missing_version (own : Version) :
    parse_connect_event ⟨none⟩ = .warnedNone ∧
    connect false own (.msg ⟨none⟩) =
      ⟨some .attributeErrorNoneVersion, true, true, 0⟩ :=
  ⟨rfl, rfl⟩

/-- C4 (witness): the amended behaviour evaluated for a v2.1 client. -/
theorem c4_connect_missing_version_witness :
    parse_connect_event ⟨none⟩ = .warnedNone ∧
    connect false Version.V_21 (.msg ⟨none⟩) =
      ⟨some .attributeErrorNoneVersion, true, true, 0⟩ :=
  c4_connect_missing_version Version.V_21

/-- C5 (counterexample): a delivered response carrying code `unauthorized`
raises the 401-class error, but the error is raised bare — its `response`
attribute is `None`, not the raw response document claimed. -/
theorem c5_counterexample :
    (retrieveResponse unauthorizedState 1).2 =
      .raised .unauthorized none ∧
    RetrieveResult.raised .unauthorized none ≠
      .raised .unauthorized (some unauthorizedDoc) := by
  refine ⟨by decide, by decide⟩

/-- C5 (amended): a delivered response carrying a known error code makes the
caller's `_retrieve_response` raise the corresponding typed error —
`unauthorized` the 401-class, `forbidden` the 403-class, `internal_server`
the 500-class — but each is raised without the response document (its
`response` attribute stays `None`); any other code is logged and the call
returns `None` instead of the document. -/
theorem c5_error_codes (st : HandlerState) (rid : Nat) (doc : Doc)
    (hw : rid ∉ st.waiting) (hres : pyGet st.responses rid = some doc) :
    (doc.code = some "unauthorized" →
       (retrieveResponse st rid).2 = .raised .unauthorized none) ∧
    (doc.code = some "forbidden" →
       (retrieveResponse st rid).2 = .raised .forbidden none) ∧
    (doc.code = some "internal_server" →
       (retrieveResponse st rid).2 = .raised .internalServer none) ∧
    (∀ c, doc.code = some c → c ≠ "unauthorized" → c ≠ "forbidden" →
       c ≠ "internal_server" →
       (retrieveResponse st rid).2 = .returnedNone) := by
  have hmem : pyMem st.responses rid = true := by
    simp [pyMem_eq_isSome, hres]
  refine ⟨?_, ?_, ?_, ?_⟩
  · intro h
    simp [retrieveResponse, hw, hmem, hres, h]
  · intro h
    simp [retrieveResponse, hw, hmem, hres, h]
  · intro h
    simp [retrieveResponse, hw, hmem, hres, h]
  · intro c h h1 h2 h3
    simp [retrieveResponse, hw, hmem, hres, h, h1, h2, h3]

/-- C5 (witness): the amended error mapping evaluated at the concrete
`unauthorized` response. -/
theorem c5_error_codes_witness :
    (retrieveResponse unauthorizedState 1).2 = .raised .unauthorized none :=
  (c5_error_codes unauthorizedState 1 unauthorizedDoc (by decide)
    (by decide)).1 rfl

/-- C2: a request id still waiting when the poll loop gives up (default
`max_wait` 600 hundredths of a second, i.e. 6 seconds) fails with the
timeout error naming that id and is removed from the waiting set; a
response for the same id arriving afterwards is logged as an unexpected
response and discarded — the handler state is left untouched, so it is
neither delivered nor buffered. -/
theorem c2_timeout (st : HandlerState) (rid : Nat) (doc : Doc)
    (hw : rid ∈ st.waiting) (hdoc : doc.reqId = some (some rid)) :
    retrieveMaxWaitDefault = 600 ∧
    retrieveResponse st rid =
      ({ st with waiting := st.waiting.filter (fun x => x ≠ rid) },
       .timeoutError rid) ∧
    rid ∉ st.waiting.filter (fun x => x ≠ rid) ∧
    messageStep { st with waiting := st.waiting.filter (fun x => x ≠ rid) }
        doc =
      ({ st with waiting := st.waiting.filter (fun x => x ≠ rid) },
       .unexpectedResponseLogged rid) := by
  refine ⟨rfl, ?_, ?_, ?_⟩
  · simp [retrieveResponse, hw]
  · simp [List.mem_filter]
  · simp [messageStep, hdoc, List.mem_filter]

/-- C2 (witness): the timeout path evaluated at a single waiting request
with id 7 and its late response. -/
theorem c2_timeout_witness :
    retrieveMaxWaitDefault = 600 ∧
    retrieveResponse ⟨[7], []⟩ 7 =
      ({ waiting := [7].filter (fun x => x ≠ 7), responses := [] },
       .timeoutError 7) ∧
    7 ∉ [7].filter (fun x => x ≠ 7) ∧
    messageStep ({ waiting := [7].filter (fun x => x ≠ 7), responses := [] })
        (docFor 7) =
      ({ waiting := [7].filter (fun x => x ≠ 7), responses := [] },
       .unexpectedResponseLogged 7) :=
  c2_timeout ⟨[7], []⟩ 7 (docFor 7) (by decide) rfl

/-- Folding any arrival order of fresh responses (distinct correlation ids,
each registered as waiting and not yet answered) through `_message_handler`
preserves the correlation invariant, never destroys a buffered response,
never re-registers a waiter, and buffers every delivered response under its
own id with its waiter unregistered. -/
theorem runMessages_delivers (msgs : List Doc) : ∀ (st : HandlerState),
    responsesInv st →
    (msgs.map Doc.reqId).Nodup →
    (∀ d ∈ msgs, ∃ i, d.reqId = some (some i) ∧ i ∈ st.waiting ∧
       pyMem st.responses i = false) →
    responsesInv (runMessages st msgs) ∧
    (∀ k doc, pyGet st.responses k = some doc →
       pyGet (runMessages st msgs).responses k = some doc) ∧
    (∀ k, k ∉ st.waiting → k ∉ (runMessages st msgs).waiting) ∧
    (∀ d ∈ msgs, ∃ i, d.reqId = some (some i) ∧
       pyGet (runMessages st msgs).responses i = some d ∧
       i ∉ (runMessages st msgs).waiting) := by
  induction msgs with
  | nil =>
    intro st hinv _ _
    exact ⟨hinv, fun _ _ h => h, fun _ h => h, by simp⟩
  | cons d t ih =>
    intro st hinv hnd hall
    obtain ⟨i, hdi, hiw, hir⟩ := hall d (List.mem_cons_self d t)
    simp only [List.map_cons, List.nodup_cons] at hnd
    have hfresh : ∀ d' ∈ t, d'.reqId ≠ d.reqId := by
      intro d' hd' he
      exact hnd.1 (he ▸ List.mem_map_of_mem Doc.reqId hd')
    have hstep : (messageStep st d).1 =
        { waiting := st.waiting.filter (fun x => x ≠ i),
          responses := pySet st.responses i d } := by
      simp [messageStep, hdi, hiw]
    have hrun : runMessages st (d :: t) =
        runMessages (messageStep st d).1 t := rfl
    rw [hrun, hstep]
    have hinv1 : responsesInv
        { waiting := st.waiting.filter (fun x => x ≠ i),
          responses := pySet st.responses i d } := by
      refine ⟨(keys_pySet st.responses i d hinv.1).1, ?_, ?_⟩
      · intro k doc' hk
        by_cases hki : k = i
        · subst hki
          rw [pyGet_pySet_self] at hk
          rw [← Option.some_inj.mp hk]
          exact hdi
        · rw [pyGet_pySet_ne _ _ _ _ hki] at hk
          exact hinv.2.1 k doc' hk
      · intro k hk
        by_cases hki : k = i
        · subst hki
          simp [List.mem_filter]
        · rw [show pyMem (pySet st.responses i d) k =
              (pyGet (pySet st.responses i d) k).isSome from rfl,
            pyGet_pySet_ne _ _ _ _ hki] at hk
          intro hmem
          exact hinv.2.2 k hk (List.mem_of_mem_filter hmem)
    have hall1 : ∀ d' ∈ t, ∃ i', d'.reqId = some (some i') ∧
        i' ∈ (st.waiting.filter (fun x => x ≠ i)) ∧
        pyMem (pySet st.responses i d) i' = false := by
      intro d' hd'
      obtain ⟨i', hdi', hiw', hir'⟩ := hall d' (List.mem_cons_of_mem d hd')
      have hii : i' ≠ i := by
        intro he
        exact hfresh d' hd' (by rw [hdi', hdi, he])
      refine ⟨i', hdi', ?_, ?_⟩
      · simp [List.mem_filter, hiw', hii]
      · rw [show pyMem (pySet st.responses i d) i' =
            (pyGet (pySet st.responses i d) i').isSome from rfl,
          pyGet_pySet_ne _ _ _ _ hii]
        exact hir'
    obtain ⟨ih1, ih2, ih3, ih4⟩ := ih _ hinv1 hnd.2 hall1
    refine ⟨ih1, ?_, ?_, ?_⟩
    · intro k doc' hk
      have hki : k ≠ i := by
        intro he
        subst he
        rw [pyMem_eq_isSome, hk] at hir
        simp at hir
      exact ih2 k doc' (by rw [pyGet_pySet_ne _ _ _ _ hki]; exact hk)
    · intro k hk
      exact ih3 k (fun hmem => hk (List.mem_of_mem_filter hmem))
    · intro d' hd'
      rcases List.mem_cons.mp hd' with rfl | hd't
      · refine ⟨i, hdi, ?_, ?_⟩
        · exact ih2 i d' (pyGet_pySet_self st.responses i d')
        · refine ih3 i ?_
          simp [List.mem_filter]
      · exact ih4 d' hd't

/-- C1: with any set of concurrently outstanding requests (`ids`, distinct)
registered as waiting, delivering their responses in **any** interleaved
order (`msgs`, one response per id, in arbitrary order) resolves each
caller's retrieval with the response document carrying *its own* correlation
id — never another caller's — and the retrieval removes the response and
the waiter, so retrieving the same id a second time fails with the
"already consumed" `APIError`: no response reaches two callers and no
waiter resolves twice. -/
theorem c1_correlation (ids : List Nat) (msgs : List Doc)
    (hnd : ids.Nodup)
    (hperm : List.Perm (msgs.map Doc.reqId) (ids.map (fun i => some (some i))))
    (hcode : ∀ d ∈ msgs, d.code = none) :
    ∀ rid ∈ ids, ∃ doc st₂,
      retrieveResponse (runMessages ⟨ids, []⟩ msgs) rid = (st₂, .ok doc) ∧
      doc.reqId = some (some rid) ∧
      retrieveResponse st₂ rid = (st₂, .apiErrorConsumed rid) := by
  have hinj : Function.Injective (fun i : Nat => some (some i)) := by
    intro a b h
    simpa using h
  have hmnd : (msgs.map Doc.reqId).Nodup :=
    hperm.nodup_iff.mpr (hnd.map hinj)
  have hall : ∀ d ∈ msgs, ∃ i, d.reqId = some (some i) ∧
      i ∈ (⟨ids, []⟩ : HandlerState).waiting ∧
      pyMem (⟨ids, []⟩ : HandlerState).responses i = false := by
    intro d hd
    have hmem : d.reqId ∈ ids.map (fun i => some (some i)) :=
      hperm.mem_iff.mp (List.mem_map_of_mem Doc.reqId hd)
    obtain ⟨i, hi, hr⟩ := List.mem_map.mp hmem
    exact ⟨i, hr.symm, hi, rfl⟩
  have hinv : responsesInv ⟨ids, []⟩ := by
    refine ⟨List.nodup_nil, ?_, ?_⟩
    · intro k doc h
      simp [pyGet] at h
    · intro k h
      simp [pyMem, pyGet] at h
  obtain ⟨hfinv, hmono, hanti, hstored⟩ :=
    runMessages_delivers msgs ⟨ids, []⟩ hinv hmnd hall
  intro rid hrid
  have hmem : some (some rid) ∈ msgs.map Doc.reqId :=
    hperm.symm.mem_iff.mp (List.mem_map_of_mem _ hrid)
  obtain ⟨d, hd, hdr⟩ := List.mem_map.mp hmem
  obtain ⟨i, hdi, hstore, hwait⟩ := hstored d hd
  have hit : i = rid := by
    rw [hdi] at hdr
    simpa using hdr
  subst hit
  set stf : HandlerState := runMessages ⟨ids, []⟩ msgs with hstf
  have hmemf : pyMem stf.responses i = true := by
    simp [pyMem_eq_isSome, hstore]
  have hcode' : d.code = none := hcode d hd
  refine ⟨d, { stf with responses := pyDel stf.responses i }, ?_, hdi, ?_⟩
  · simp [retrieveResponse, hwait, hmemf, hstore, hcode']
  · have hdel : pyGet (pyDel stf.responses i) i = none :=
      pyGet_pyDel_self _ _ hfinv.1
    simp [retrieveResponse, hwait, pyMem_eq_isSome, hdel]

/-- C1 (witness): two outstanding requests (ids 1 and 2) answered in
reversed order; caller 1's retrieval returns the document with correlation
id 1. -/
theorem c1_correlation_witness :
    ∃ doc st₂,
      retrieveResponse (runMessages ⟨[1, 2], []⟩ [docFor 2, docFor 1]) 1 =
        (st₂, .ok doc) ∧
      doc.reqId = some (some 1) ∧
      retrieveResponse st₂ 1 = (st₂, .apiErrorConsumed 1) :=
  c1_correlation [1, 2] [docFor 2, docFor 1] (by decide)
    (by decide) (by decide) 1 (by decide)

end Pipsqueak
